import Mathlib

/-!
Shallow embedding of `filtermanage.py` (starformmapper): bands (filters),
filter sets, the `FilterSetManager` registry, the magnitude/flux-density
conversions, and the `Photometry` record.

Python dictionaries are embedded as insertion-ordered association lists
(`dlookup` / `dinsert`), strings as `String`, the numeric reference data
(wavelength, bandwidth, zero-point) as exact rationals, and float
computations as real numbers extended with the IEEE-754 special values
`+inf`, `-inf` and `nan` (`FloatVal`), which arise only from `np.log10`
applied to non-positive arguments.  Python exceptions are embedded as
`Except PyError`.
-/

/-- Python runtime errors raised by the embedded code. -/
inductive PyError where
  | keyError (key : String)
  | attributeError (msg : String)
  | nameError (name : String)
  | typeError (msg : String)
  | exception (msg : String)
deriving DecidableEq

/-- The astropy units that occur in `filtermanage.py` values: `u.Jy`,
`u.mJy`, magnitude, and a catch-all for any other (composite) unit. -/
inductive PyUnit where
  | jansky
  | milliJansky
  | mag
  | other
deriving DecidableEq

/-- An IEEE-754 double: a finite real, an infinity, or `nan`.  Non-finite
values arise in `filtermanage.py` only from `np.log10` of non-positive
arguments (numpy returns `-inf` at `0` and `nan` below `0`, emitting a
non-fatal `RuntimeWarning`, not an exception). -/
inductive FloatVal where
  | finite (x : ℝ)
  | posInf
  | negInf
  | nan

/-- Float multiplication by a constant `c > 0` (the unit-conversion factors
`1000`, and the positive zero-points): sign-preserving on infinities.
Every use in this development has `c > 0`. -/
noncomputable def FloatVal.scalePos (c : ℝ) : FloatVal → FloatVal
  | .finite x => .finite (c * x)
  | .posInf => .posInf
  | .negInf => .negInf
  | .nan => .nan

/-- Float division by a constant `c > 0` (the factor `1000.0` of the
mJy-to-Jy conversion and the positive zero-point divisor):
sign-preserving on infinities.  Every use in this development has `c > 0`. -/
noncomputable def FloatVal.divPos : FloatVal → ℝ → FloatVal
  | .finite x, c => .finite (x / c)
  | .posInf, _ => .posInf
  | .negInf, _ => .negInf
  | .nan, _ => .nan

/-- `np.log10` with IEEE-754 semantics: `log10` of a positive finite float
is finite, `log10(0.0) = -inf`, `log10` of a negative float is `nan`
(numpy emits a `RuntimeWarning` in the last two cases but still returns). -/
noncomputable def np_log10 : FloatVal → FloatVal
  | .finite x =>
      if 0 < x then .finite (Real.log x / Real.log 10)
      else if x = 0 then .negInf
      else .nan
  | .posInf => .posInf
  | .negInf => .nan
  | .nan => .nan

/-- The float expression `10.0 ** (m / -2.5)` of `magtoflux`
(lines 357 and 359): `10 ** -inf = 0.0`, `10 ** +inf = +inf`. -/
noncomputable def exp10NegDiv : FloatVal → FloatVal
  | .finite x => .finite ((10 : ℝ) ^ (x / (-2.5)))
  | .posInf => .finite 0
  | .negInf => .posInf
  | .nan => .nan

/-- The float expression `-2.5 * v` of `fluxtomag` (line 383). -/
noncomputable def mulNeg2p5 : FloatVal → FloatVal
  | .finite x => .finite ((-2.5) * x)
  | .posInf => .negInf
  | .negInf => .posInf
  | .nan => .nan

/-- An astropy `Quantity` with a (non-magnitude) unit. -/
structure Quantity where
  value : FloatVal
  unit : PyUnit

/-- An astropy `u.Magnitude` quantity (the return type of `fluxtomag`). -/
structure Magnitude where
  value : FloatVal

/-- `quantity.to(u.Jy).value`: identity on Jy, division by `1000.0` on
mJy; astropy raises `UnitConversionError` on a non-flux-density unit. -/
noncomputable def Quantity.toJyValue (q : Quantity) : Except PyError FloatVal :=
  match q.unit with
  | .jansky => .ok q.value
  | .milliJansky => .ok (q.value.divPos 1000)
  | _ => .error (.exception "UnitConversionError")

/-- Python `str.lower()` on the embedded (ASCII) strings, implemented
structurally over the character list (so that it reduces inside the
kernel; `String.toLower` itself is defined by well-founded recursion). -/
def pyLower (s : String) : String := ⟨s.data.map Char.toLower⟩

/-- Python `dict` lookup `d[key]` on an insertion-ordered association
list, returning `none` where Python raises `KeyError`. -/
def dlookup {α : Type} : List (String × α) → String → Option α
  | [], _ => none
  | (k, v) :: rest, key => if key = k then some v else dlookup rest key

/-- Python `dict` assignment `d[key] = v` on an insertion-ordered
association list: overwrites in place, else appends. -/
def dinsert {α : Type} : List (String × α) → String → α → List (String × α)
  | [], key, v => [(key, v)]
  | (k, w) :: rest, key, v =>
      if key = k then (key, v) :: rest else (k, w) :: dinsert rest key v

/-! ### Telescope and band name constants (filtermanage.py lines 17-74) -/

def SDSS : String := "SDSS"
def SLOAN : String := "SDSS"
def SPITZER : String := "Spitzer"
def GAIA : String := "GAIA"
def GAIA2 : String := "GAIA2"
def GAIA2r : String := "GAIA2r"
def HERSCHEL : String := "Herschel"
def TWOMASS : String := "2MASS"
def WISE : String := "WISE"
def GENERIC : String := "Generic"

def SDSS_u : String := "SDSS_u"
def SDSS_g : String := "SDSS_g"
def SDSS_r : String := "SDSS_r"
def SDSS_i : String := "SDSS_i"
def SDSS_z : String := "SDSS_z"
def BESSELL_U : String := "BU"
def BESSELL_B : String := "BB"
def BESSELL_V : String := "BV"
def BESSELL_R : String := "BR"
def BESSELL_I : String := "BI"
def GAIA_G2 : String := "GAIA_G2"
def GAIA_B2 : String := "GAIA_BP2"
def GAIA_R2 : String := "GAIA_RP2"
def GAIA_G2r : String := "GAIA_G2r"
def GAIA_B2r : String := "GAIA_BP2r"
def GAIA_R2r : String := "GAIA_RP2r"
def TWOMASS_J : String := "2J"
def TWOMASS_H : String := "2H"
def TWOMASS_K : String := "2K"
def IRAC1 : String := "I1"
def IRAC2 : String := "I2"
def IRAC3 : String := "I3"
def IRAC4 : String := "I4"
def MIPS1 : String := "M1"
def MIPS2 : String := "M2"
def MIPS3 : String := "M3"
def PACS_B : String := "PACS1"
def PACS_G : String := "PACS2"
def PACS_R : String := "PACS3"
def WISE1 : String := "WISE1"
def WISE2 : String := "WISE2"
def WISE3 : String := "WISE3"
def WISE4 : String := "WISE4"

/-- The static band-to-telescope reverse-lookup table `_valid_bands`
(filtermanage.py lines 77-120). -/
def _valid_bands : List (String × String) :=
  [(SDSS_u, SLOAN), (SDSS_g, SLOAN), (SDSS_r, SLOAN), (SDSS_i, SLOAN), (SDSS_z, SLOAN),
   (BESSELL_U, GENERIC), (BESSELL_B, GENERIC), (BESSELL_V, GENERIC),
   (BESSELL_R, GENERIC), (BESSELL_I, GENERIC),
   (GAIA_G2, GAIA), (GAIA_B2, GAIA), (GAIA_R2, GAIA),
   (GAIA_G2r, GAIA), (GAIA_B2r, GAIA), (GAIA_R2r, GAIA),
   (TWOMASS_J, TWOMASS), (TWOMASS_H, TWOMASS), (TWOMASS_K, TWOMASS),
   (IRAC1, SPITZER), (IRAC2, SPITZER), (IRAC3, SPITZER), (IRAC4, SPITZER),
   (MIPS1, SPITZER), (MIPS2, SPITZER), (MIPS3, SPITZER),
   (PACS_B, HERSCHEL), (PACS_G, HERSCHEL), (PACS_R, HERSCHEL),
   (WISE1, WISE), (WISE2, WISE), (WISE3, WISE), (WISE4, WISE)]

/-- One photometric band (filtermanage.py `Band`, lines 126-180):
canonical name, mean wavelength and effective bandwidth in angstrom,
zero-point flux density in jansky.  The constructor's unit-dimension
validation always passes for the embedded catalog, whose values are
given in angstrom and jansky. -/
structure Band where
  name : String
  wavelength : ℚ
  bandwidth : ℚ
  zeropoint : ℚ
deriving DecidableEq

/-- A filter set (filtermanage.py `FilterSet`, lines 182-218): a name and
a dictionary of Bands keyed by lowercased band name. -/
structure FilterSet where
  name : String
  bands : List (String × Band)
deriving DecidableEq

/-- The dynamically-typed `bands` argument of `FilterSet.addBands`:
a single `Band` object or a Python list of them. -/
inductive BandsArg where
  | single (b : Band)
  | list (bs : List Band)

/-- The loop body of `addBands` (lines 205-206) applied to a Python list:
`self._bands[band._name.lower()] = band` for each band in order. -/
def FilterSet.addBandsList (fs : FilterSet) (bs : List Band) : FilterSet :=
  ⟨fs.name, bs.foldl (fun d band => dinsert d (pyLower band.name) band) fs.bands⟩

/-- `FilterSet.addBands` (lines 202-206).  When the argument is not a
Python list the code runs `bands = list(bands)`; a single `Band` defines
neither `__iter__` nor `__getitem__`, so `list(...)` raises
`TypeError: 'Band' object is not iterable`. -/
def FilterSet.addBands (fs : FilterSet) : BandsArg → Except PyError FilterSet
  | .single _ => .error (.typeError "Band object is not iterable")
  | .list bs => .ok (fs.addBandsList bs)

/-- `FilterSet.__getitem__` (lines 210-211): case-insensitive band lookup
`self._bands[bandname.lower()]`; a miss raises `KeyError`. -/
def FilterSet.getitem (fs : FilterSet) (bandname : String) : Except PyError Band :=
  match dlookup fs.bands (pyLower bandname) with
  | some b => .ok b
  | none => .error (.keyError (pyLower bandname))

/-! ### The hard-coded catalog (filtermanage.py lines 228-284) -/

def sloan : List Band :=
  [⟨SDSS_u, 3561.8, 558.4, 1568.5⟩,
   ⟨SDSS_g, 4718.9, 1158.4, 3965.9⟩,
   ⟨SDSS_r, 6185.2, 1111.2, 3162.0⟩,
   ⟨SDSS_i, 7499.7, 1044.6, 2602.0⟩,
   ⟨SDSS_z, 8961.5, 1124.6, 2244.7⟩]

def bessel : List Band :=
  [⟨BESSELL_U, 3605.1, 640.4, 1803.1⟩,
   ⟨BESSELL_B, 4400.0, 900.0, 4000.0⟩,
   ⟨BESSELL_V, 5312.1, 893.1, 3579.8⟩,
   ⟨BESSELL_R, 6575.9, 1591.0, 2971.4⟩,
   ⟨BESSELL_I, 8059.9, 1495.1, 2405.3⟩]

def gaia2 : List Band :=
  [⟨GAIA_B2, 5279.9, 2347.4, 3534.7⟩,
   ⟨GAIA_G2, 6742.5, 4183.0, 3296.2⟩,
   ⟨GAIA_R2, 7883.7, 2756.8, 2620.3⟩]

def gaia2r : List Band :=
  [⟨GAIA_B2r, 5278.6, 2279.4, 3393.3⟩,
   ⟨GAIA_G2r, 6773.7, 4358.4, 2835.1⟩,
   ⟨GAIA_R2r, 7919.1, 2943.7, 2485.1⟩]

def twomass : List Band :=
  [⟨TWOMASS_J, 12350.0, 1624.1, 1594.0⟩,
   ⟨TWOMASS_H, 16620.0, 2509.4, 1024.0⟩,
   ⟨TWOMASS_K, 21590.0, 2618.9, 666.8⟩]

def spitzer : List Band :=
  [⟨IRAC1, 35572.6, 6836.2, 277.2⟩,
   ⟨IRAC2, 45049.3, 8649.9, 179.0⟩,
   ⟨IRAC3, 57385.7, 12561.2, 113.8⟩,
   ⟨IRAC4, 79273.7, 25288.5, 62.0⟩,
   ⟨MIPS1, 238433.1, 52963.2, 7.1⟩,
   ⟨MIPS2, 725555.3, 213015.3, 0.8⟩,
   ⟨MIPS3, 1569627.1, 357530.2, 0.2⟩]

def herschel : List Band :=
  [⟨PACS_B, 719334.2, 214148.9, 0.8⟩,
   ⟨PACS_G, 1026174.6, 312860.0, 0.4⟩,
   ⟨PACS_R, 1671355.3, 697595.3, 0.1⟩]

def wise : List Band :=
  [⟨WISE1, 33526.0, 6626.4, 309.5⟩,
   ⟨WISE2, 46028.0, 10422.7, 171.8⟩,
   ⟨WISE3, 115608.0, 55055.7, 31.7⟩,
   ⟨WISE4, 220883.0, 41016.8, 8.4⟩]

/-- `all_filtersets` (line 283); `gaia2r` is defined in the source but not
listed there, so it is never registered. -/
def all_filtersets : List (List Band) :=
  [sloan, gaia2, bessel, twomass, spitzer, herschel, wise]

/-- `all_names` (line 284), pairing a telescope name with each list. -/
def all_names : List String :=
  [SLOAN, GAIA, GENERIC, TWOMASS, SPITZER, HERSCHEL, WISE]

/-- The registry (filtermanage.py `FilterSetManager`, lines 289-383):
the `_filtersets` dictionary keyed by lowercased filter-set name. -/
structure FilterSetManager where
  filtersets : List (String × FilterSet)
deriving DecidableEq

/-- `FilterSetManager.__init__` (lines 293-303): for each (bands, name)
pair of the catalog, build `FilterSet(name)`, add the band list (the
Python-list branch of `addBands`), and register every set under its
lowercased name via `addFilterSets`. -/
def fsmInit : FilterSetManager :=
  ⟨(all_filtersets.zip all_names).foldl
    (fun d fn => dinsert d (pyLower fn.2) ((FilterSet.mk fn.2 []).addBandsList fn.1)) []⟩

/-- `FilterSetManager.__getitem__` (lines 318-319):
`self._filtersets[name.lower()]`; a miss raises `KeyError`. -/
def FilterSetManager.getitem (m : FilterSetManager) (name : String) :
    Except PyError FilterSet :=
  match dlookup m.filtersets (pyLower name) with
  | some fs => .ok fs
  | none => .error (.keyError (pyLower name))

/-- `FilterSetManager.bandnames` (lines 326-327):
`self._filtersets[filterset].keys()`.  The set name is looked up raw (no
`.lower()`), a miss raising `KeyError`; on a hit, `FilterSet` defines no
`keys` method (only `__getitem__` and `__setitem__`), so the attribute
access raises `AttributeError` and no name list is ever returned. -/
def FilterSetManager.bandnames (m : FilterSetManager) (filterset : String) :
    Except PyError (List String) :=
  match dlookup m.filtersets filterset with
  | none => .error (.keyError filterset)
  | some _ => .error (.attributeError "FilterSet object has no attribute keys")

/-- The dynamically-typed `magnitude` argument of `magtoflux`: a bare
number, or an astropy magnitude Quantity (distinguished in the source by
`qh.isMagnitude`, from the `quantityhelpers` module). -/
inductive MagArg where
  | magnitudeQ (value : FloatVal)
  | scalar (value : ℝ)

/-- The dynamically-typed `flux` argument of `fluxtomag`: a bare number,
or an astropy Quantity (distinguished in the source by `qh.isQuantity`). -/
inductive FluxArg where
  | quantity (q : Quantity)
  | scalar (value : ℝ)

/-- `FilterSetManager.magtoflux` (lines 344-363):
`zpjy = self._filtersets[telescope.lower()][band].zp().to(u.Jy)`, then
`value = zpjy * 10.0 ** (magnitude / -2.5)` (with `.value` extracted
first when the magnitude is a Quantity).  With `mjy=True` the result is
`value.to(u.mJy)`; with `mjy=False` the code runs `value.to(Jy)` where
`Jy` is an undefined global name (the module only defines `u.Jy`), so
Python raises `NameError: name 'Jy' is not defined`. -/
noncomputable def FilterSetManager.magtoflux (m : FilterSetManager)
    (telescope band : String) (magnitude : MagArg) (mjy : Bool) :
    Except PyError Quantity :=
  match m.getitem telescope with
  | .error e => .error e
  | .ok fs =>
    match fs.getitem band with
    | .error e => .error e
    | .ok b =>
      let zpjy : ℝ := (b.zeropoint : ℝ)
      let mv : FloatVal :=
        match magnitude with
        | .magnitudeQ v => v
        | .scalar x => .finite x
      let value : FloatVal := (exp10NegDiv mv).scalePos zpjy
      if mjy then .ok ⟨value.scalePos 1000, .milliJansky⟩
      else .error (.nameError "Jy")

/-- `FilterSetManager.fluxtomag` (lines 368-383):
`zpjy = self._filtersets[telescope.lower()][band].zp().to(u.Jy)`; a
Quantity flux is converted by `flux.to(u.Jy).value` (the `mjy` flag
ignored), a bare number is divided by `1000.0` when `mjy=True`; the
result is `u.Magnitude(-2.5 * np.log10(fval / zpjy.value))`, with no
check that the flux is positive. -/
noncomputable def FilterSetManager.fluxtomag (m : FilterSetManager)
    (telescope band : String) (flux : FluxArg) (mjy : Bool) :
    Except PyError Magnitude :=
  match m.getitem telescope with
  | .error e => .error e
  | .ok fs =>
    match fs.getitem band with
    | .error e => .error e
    | .ok b =>
      let zpjy : ℝ := (b.zeropoint : ℝ)
      let fval? : Except PyError FloatVal :=
        match flux with
        | .quantity q => q.toJyValue
        | .scalar x => .ok (.finite (if mjy then x / 1000 else x))
      match fval? with
      | .error e => .error e
      | .ok fval => .ok ⟨mulNeg2p5 (np_log10 (fval.divPos zpjy))⟩

/-- The Sloan filter set exactly as `fsmInit` registers it under the
key `"sdss"`. -/
def sdssFilterSet : FilterSet := (FilterSet.mk SDSS []).addBandsList sloan

/-- The Sloan `u` band record of the catalog. -/
def sloanUBand : Band := ⟨SDSS_u, 3561.8, 558.4, 1568.5⟩

/-! ### Photometry (filtermanage.py lines 385-483) -/

/-- A dynamically-typed `flux` / `error` argument of `Photometry`:
an astropy Quantity, an astropy magnitude Quantity, or a bare number. -/
inductive PyInput where
  | quantity (q : Quantity)
  | magnitudeQ (value : FloatVal)
  | scalar (value : ℝ)

/-- Modelled from the spec: `quantityhelpers.isFluxDensity` (module not in
the sources) recognises a value "flux-density-kind" exactly when it is a
Quantity carrying a flux-density unit (Jy or mJy). -/
def isFluxDensity : PyInput → Bool
  | .quantity ⟨_, .jansky⟩ => true
  | .quantity ⟨_, .milliJansky⟩ => true
  | _ => false

/-- Modelled from the spec: `quantityhelpers.isMagnitude` (module not in
the sources) recognises a value "magnitude-kind" exactly when it is an
astropy magnitude Quantity. -/
def isMagnitude : PyInput → Bool
  | .magnitudeQ _ => true
  | _ => false

/-- Modelled from the spec: `value * unit` tags a raw number with the
supplied unit (magnitude-kind for a magnitude unit, flux-density-kind
for Jy/mJy); multiplying an already unit-tagged value yields a composite
unit that is neither flux-density- nor magnitude-kind. -/
def PyInput.mulUnit : PyInput → PyUnit → PyInput
  | .scalar x, .mag => .magnitudeQ (.finite x)
  | .scalar x, uu => .quantity ⟨.finite x, uu⟩
  | .quantity q, _ => .quantity ⟨q.value, .other⟩
  | .magnitudeQ v, _ => .quantity ⟨v, .other⟩

/-- A single photometric point (filtermanage.py `Photometry`): band name,
resolved value and error, validity flag.  The `_fsm` field is omitted:
`FilterSetManager()` always constructs the same registry, embedded here
as the fixed value `fsmInit`. -/
structure Photometry where
  bandname : String
  flux : PyInput
  error : PyInput
  validity : Bool

/-- `Photometry.__init__` (lines 388-412).  An unrecognized band name
(absent from `_valid_bands`) only emits a non-fatal warning (the returned
Bool records whether it fired).  A value that is neither flux-density-
nor magnitude-kind must come with a `unit`, else an `Exception` is
raised; after resolution, value and error must be of the same kind, else
an `Exception` ("MixedKindError") is raised and no object is produced. -/
def photometryInit (bandname : String) (flux error : PyInput)
    (validity : Bool) (unit : Option PyUnit) :
    Except PyError (Photometry × Bool) :=
  let warned : Bool := (dlookup _valid_bands bandname).isNone
  let fluxR? : Except PyError PyInput :=
    if isFluxDensity flux || isMagnitude flux then .ok flux
    else
      match unit with
      | none => .error (.exception "flux or unit must be a Magnitude or Flux Density Quantity")
      | some uu => .ok (flux.mulUnit uu)
  match fluxR? with
  | .error e => .error e
  | .ok fluxR =>
    let errorR? : Except PyError PyInput :=
      if isFluxDensity error || isMagnitude error then .ok error
      else
        match unit with
        | none => .error (.exception "error must be a Magnitude or Flux Density Quantity")
        | some uu => .ok (error.mulUnit uu)
    match errorR? with
    | .error e => .error e
    | .ok errorR =>
      if (isFluxDensity fluxR && isFluxDensity errorR)
          || (isMagnitude fluxR && isMagnitude errorR) then
        .ok (⟨bandname, fluxR, errorR, validity⟩, warned)
      else
        .error (.exception "flux and error must be a Magnitude or Flux Density Quantity and have equivalent units")

/-- The `Photometry.flux` property (lines 423-430): a magnitude-stored
value is converted via `tel = _valid_bands[self._bandname].lower()` (a
`KeyError` when the band is not in the table) and
`self._fsm.magtoflux(tel, self._bandname, self._flux)` (default
`mjy=True`); anything else is returned verbatim. -/
noncomputable def Photometry.fluxProp (p : Photometry) : Except PyError PyInput :=
  match p.flux with
  | .magnitudeQ m =>
    match dlookup _valid_bands p.bandname with
    | none => .error (.keyError p.bandname)
    | some tel =>
      (fsmInit.magtoflux (pyLower tel) p.bandname (.magnitudeQ m) true).map
        (fun q => .quantity q)
  | f => .ok f

/-- The `Photometry.magnitude` property (lines 435-442): a value stored
as a flux density is converted via `tel = _valid_bands[self._bandname].lower()`
(a `KeyError` when the band is not in the table) and
`self._fsm.fluxtomag(tel, self._bandname, self._flux)` (default
`mjy=True`); anything else is returned verbatim. -/
noncomputable def Photometry.magnitudeProp (p : Photometry) : Except PyError PyInput :=
  match p.flux with
  | .quantity ⟨v, .jansky⟩ =>
    match dlookup _valid_bands p.bandname with
    | none => .error (.keyError p.bandname)
    | some tel =>
      (fsmInit.fluxtomag (pyLower tel) p.bandname (.quantity ⟨v, .jansky⟩) true).map
        (fun mq => .magnitudeQ mq.value)
  | .quantity ⟨v, .milliJansky⟩ =>
    match dlookup _valid_bands p.bandname with
    | none => .error (.keyError p.bandname)
    | some tel =>
      (fsmInit.fluxtomag (pyLower tel) p.bandname (.quantity ⟨v, .milliJansky⟩) true).map
        (fun mq => .magnitudeQ mq.value)
  | f => .ok f

/-! ### Helper lemmas -/

/-- A successful Python dict lookup finds a stored pair. -/
theorem dlookup_mem {α : Type} {l : List (String × α)} {key : String} {v : α}
    (h : dlookup l key = some v) : (key, v) ∈ l := by
  induction l with
  | nil => simp [dlookup] at h
  | cons p rest ih =>
    obtain ⟨k, w⟩ := p
    rw [dlookup] at h
    by_cases hk : key = k
    · rw [if_pos hk] at h
      cases h
      subst hk
      exact List.mem_cons_self _ _
    · rw [if_neg hk] at h
      exact List.mem_cons_of_mem _ (ih h)

/-- Every band of the registry built by `FilterSetManager.__init__` has a
positive zero-point. -/
theorem registry_zp_pos :
    ∀ p ∈ fsmInit.filtersets, ∀ q ∈ p.2.bands, 0 < q.2.zeropoint := by
  have e : fsmInit.filtersets =
      [("sdss", (FilterSet.mk SLOAN []).addBandsList sloan),
       ("gaia", (FilterSet.mk GAIA []).addBandsList gaia2),
       ("generic", (FilterSet.mk GENERIC []).addBandsList bessel),
       ("2mass", (FilterSet.mk TWOMASS []).addBandsList twomass),
       ("spitzer", (FilterSet.mk SPITZER []).addBandsList spitzer),
       ("herschel", (FilterSet.mk HERSCHEL []).addBandsList herschel),
       ("wise", (FilterSet.mk WISE []).addBandsList wise)] := rfl
  intro p hp q hq
  rw [e] at hp
  simp only [List.mem_cons, List.not_mem_nil, or_false] at hp
  rcases hp with rfl | rfl | rfl | rfl | rfl | rfl | rfl <;> dsimp only at hq
  · rw [show ((FilterSet.mk SLOAN []).addBandsList sloan).bands
        = sloan.map (fun b => (pyLower b.name, b)) from rfl] at hq
    obtain ⟨b, hb, rfl⟩ := List.mem_map.mp hq
    fin_cases hb <;> norm_num
  · rw [show ((FilterSet.mk GAIA []).addBandsList gaia2).bands
        = gaia2.map (fun b => (pyLower b.name, b)) from rfl] at hq
    obtain ⟨b, hb, rfl⟩ := List.mem_map.mp hq
    fin_cases hb <;> norm_num
  · rw [show ((FilterSet.mk GENERIC []).addBandsList bessel).bands
        = bessel.map (fun b => (pyLower b.name, b)) from rfl] at hq
    obtain ⟨b, hb, rfl⟩ := List.mem_map.mp hq
    fin_cases hb <;> norm_num
  · rw [show ((FilterSet.mk TWOMASS []).addBandsList twomass).bands
        = twomass.map (fun b => (pyLower b.name, b)) from rfl] at hq
    obtain ⟨b, hb, rfl⟩ := List.mem_map.mp hq
    fin_cases hb <;> norm_num
  · rw [show ((FilterSet.mk SPITZER []).addBandsList spitzer).bands
        = spitzer.map (fun b => (pyLower b.name, b)) from rfl] at hq
    obtain ⟨b, hb, rfl⟩ := List.mem_map.mp hq
    fin_cases hb <;> norm_num
  · rw [show ((FilterSet.mk HERSCHEL []).addBandsList herschel).bands
        = herschel.map (fun b => (pyLower b.name, b)) from rfl] at hq
    obtain ⟨b, hb, rfl⟩ := List.mem_map.mp hq
    fin_cases hb <;> norm_num
  · rw [show ((FilterSet.mk WISE []).addBandsList wise).bands
        = wise.map (fun b => (pyLower b.name, b)) from rfl] at hq
    obtain ⟨b, hb, rfl⟩ := List.mem_map.mp hq
    fin_cases hb <;> norm_num

/-- A successful `__getitem__` chain through the registry yields a band
with positive zero-point. -/
theorem registered_zp_pos {tel band : String} {fs : FilterSet} {b : Band}
    (hfs : fsmInit.getitem tel = Except.ok fs)
    (hb : fs.getitem band = Except.ok b) : 0 < (b.zeropoint : ℝ) := by
  have h1 : dlookup fsmInit.filtersets (pyLower tel) = some fs := by
    unfold FilterSetManager.getitem at hfs
    cases hd : dlookup fsmInit.filtersets (pyLower tel) with
    | some fs2 => rw [hd] at hfs; cases hfs; rfl
    | none => rw [hd] at hfs; cases hfs
  have h2 : dlookup fs.bands (pyLower band) = some b := by
    unfold FilterSet.getitem at hb
    cases hd : dlookup fs.bands (pyLower band) with
    | some b2 => rw [hd] at hb; cases hb; rfl
    | none => rw [hd] at hb; cases hb
  have hq : 0 < b.zeropoint :=
    registry_zp_pos _ (dlookup_mem h1) _ (dlookup_mem h2)
  exact_mod_cast hq

/-- `np.log10` inverts `10 ** y` exactly. -/
theorem np_log10_rpow (y : ℝ) :
    np_log10 (FloatVal.finite ((10 : ℝ) ^ y)) = FloatVal.finite y := by
  have hpos : (0:ℝ) < (10:ℝ) ^ y := Real.rpow_pos_of_pos (by norm_num) y
  have hlog : Real.log ((10:ℝ) ^ y) = y * Real.log 10 :=
    Real.log_rpow (by norm_num) y
  have hne : Real.log 10 ≠ 0 := ne_of_gt (Real.log_pos (by norm_num))
  simp only [np_log10]
  rw [if_pos hpos, hlog]
  congr 1
  field_simp

/-- Evaluation of `magtoflux` on a bare scalar magnitude with `mjy=True`,
given successful lookups: the returned mJy value is
`1000 * (zeropoint * 10 ** (m / -2.5))`. -/
theorem magtoflux_eval {tel band : String} {fs : FilterSet} {b : Band}
    (hfs : fsmInit.getitem tel = Except.ok fs)
    (hb : fs.getitem band = Except.ok b) (m : ℝ) :
    fsmInit.magtoflux tel band (MagArg.scalar m) true =
      Except.ok ⟨FloatVal.finite (1000 * ((b.zeropoint : ℝ) * (10:ℝ) ^ (m / (-2.5)))),
        PyUnit.milliJansky⟩ := by
  unfold FilterSetManager.magtoflux
  rw [hfs]
  dsimp only
  rw [hb]
  dsimp only
  simp [exp10NegDiv, FloatVal.scalePos]

/-! ### Claim theorems -/

/-- **C4**: for the registered Sloan filter set and its `u` band
(zero-point 1568.5 Jy), `magtoflux` at magnitude 10 with the default
`mjy=True` option returns exactly 156.85 mJy. -/
theorem magtoflux_sloan_u_mag10 :
    fsmInit.magtoflux "SDSS" "SDSS_u" (MagArg.scalar 10) true =
      Except.ok ⟨FloatVal.finite 156.85, PyUnit.milliJansky⟩ := by
  have h := @magtoflux_eval "SDSS" "SDSS_u" sdssFilterSet sloanUBand rfl rfl 10
  rw [h]
  have hv : (1000:ℝ) * ((sloanUBand.zeropoint : ℝ) * (10:ℝ) ^ ((10:ℝ) / (-2.5)))
      = 156.85 := by
    have h4 : ((10:ℝ) / (-2.5)) = ((-4 : ℤ) : ℝ) := by norm_num
    rw [h4, Real.rpow_intCast]
    norm_num [sloanUBand]
  rw [hv]

/-- **C1**: for every registered (filterSet, band) pair and every
magnitude `m`, `fluxtomag` applied to the result of `magtoflux` (default
`mjy=True`) recovers `m` exactly (hence within any floating-point
tolerance): the two formulas are exact inverses. -/
theorem magtoflux_fluxtomag_roundtrip {tel band : String} {fs : FilterSet} {b : Band}
    (hfs : fsmInit.getitem tel = Except.ok fs)
    (hb : fs.getitem band = Except.ok b) (m : ℝ) :
    (fsmInit.magtoflux tel band (MagArg.scalar m) true).bind
      (fun q => fsmInit.fluxtomag tel band (FluxArg.quantity q) true) =
      Except.ok ⟨FloatVal.finite m⟩ := by
  have hzp : 0 < (b.zeropoint : ℝ) := registered_zp_pos hfs hb
  have hzp' : (b.zeropoint : ℝ) ≠ 0 := ne_of_gt hzp
  rw [magtoflux_eval hfs hb m]
  show fsmInit.fluxtomag tel band
      (FluxArg.quantity ⟨FloatVal.finite
        (1000 * ((b.zeropoint : ℝ) * (10:ℝ) ^ (m / (-2.5)))), PyUnit.milliJansky⟩) true
      = Except.ok ⟨FloatVal.finite m⟩
  unfold FilterSetManager.fluxtomag
  rw [hfs]
  dsimp only
  rw [hb]
  dsimp only
  simp only [Quantity.toJyValue, FloatVal.divPos]
  have harg : (1000:ℝ) * ((b.zeropoint : ℝ) * (10:ℝ) ^ (m / (-2.5))) / 1000
      / (b.zeropoint : ℝ) = (10:ℝ) ^ (m / (-2.5)) := by
    field_simp
  rw [harg, np_log10_rpow]
  simp only [mulNeg2p5, Except.ok.injEq, Magnitude.mk.injEq, FloatVal.finite.injEq]
  ring

/-- Witness for C1 at the Sloan `u` band and magnitude 10. -/
theorem magtoflux_fluxtomag_roundtrip_witness :
    (fsmInit.magtoflux "SDSS" "SDSS_u" (MagArg.scalar 10) true).bind
      (fun q => fsmInit.fluxtomag "SDSS" "SDSS_u" (FluxArg.quantity q) true) =
      Except.ok ⟨FloatVal.finite 10⟩ :=
  @magtoflux_fluxtomag_roundtrip "SDSS" "SDSS_u" sdssFilterSet sloanUBand rfl rfl 10

/-- **C9**: for every registered (filterSet, band) pair, `magtoflux`
(with the default `mjy=True`) is strictly decreasing in the magnitude:
for `m1 < m2` the returned mJy flux at `m2` is strictly below the one at
`m1`. -/
theorem magtoflux_strictly_decreasing (tel band : String) (fs : FilterSet) (b : Band)
    (hfs : fsmInit.getitem tel = Except.ok fs)
    (hb : fs.getitem band = Except.ok b) (m1 m2 : ℝ) (h : m1 < m2) :
    fsmInit.magtoflux tel band (MagArg.scalar m1) true =
      Except.ok ⟨FloatVal.finite (1000 * ((b.zeropoint : ℝ) * (10:ℝ) ^ (m1 / (-2.5)))),
        PyUnit.milliJansky⟩ ∧
    fsmInit.magtoflux tel band (MagArg.scalar m2) true =
      Except.ok ⟨FloatVal.finite (1000 * ((b.zeropoint : ℝ) * (10:ℝ) ^ (m2 / (-2.5)))),
        PyUnit.milliJansky⟩ ∧
    1000 * ((b.zeropoint : ℝ) * (10:ℝ) ^ (m2 / (-2.5))) <
      1000 * ((b.zeropoint : ℝ) * (10:ℝ) ^ (m1 / (-2.5))) := by
  have hzp : 0 < (b.zeropoint : ℝ) := registered_zp_pos hfs hb
  refine ⟨magtoflux_eval hfs hb m1, magtoflux_eval hfs hb m2, ?_⟩
  have hexp : (10:ℝ) ^ (m2 / (-2.5)) < (10:ℝ) ^ (m1 / (-2.5)) := by
    apply (Real.rpow_lt_rpow_left_iff (by norm_num : (1:ℝ) < 10)).mpr
    rw [div_lt_iff_of_neg (by norm_num : (-2.5:ℝ) < 0),
      div_mul_cancel₀ _ (by norm_num : (-2.5:ℝ) ≠ 0)]
    exact h
  exact mul_lt_mul_of_pos_left (mul_lt_mul_of_pos_left hexp hzp) (by norm_num)

/-- Witness for C9 at the Sloan `u` band with magnitudes 0 < 1. -/
theorem magtoflux_strictly_decreasing_witness :
    (fsmInit.magtoflux "SDSS" "SDSS_u" (MagArg.scalar 0) true =
      Except.ok ⟨FloatVal.finite
        (1000 * ((sloanUBand.zeropoint : ℝ) * (10:ℝ) ^ ((0:ℝ) / (-2.5)))),
        PyUnit.milliJansky⟩) ∧
    (fsmInit.magtoflux "SDSS" "SDSS_u" (MagArg.scalar 1) true =
      Except.ok ⟨FloatVal.finite
        (1000 * ((sloanUBand.zeropoint : ℝ) * (10:ℝ) ^ ((1:ℝ) / (-2.5)))),
        PyUnit.milliJansky⟩) ∧
    1000 * ((sloanUBand.zeropoint : ℝ) * (10:ℝ) ^ ((1:ℝ) / (-2.5))) <
      1000 * ((sloanUBand.zeropoint : ℝ) * (10:ℝ) ^ ((0:ℝ) / (-2.5))) :=
  magtoflux_strictly_decreasing "SDSS" "SDSS_u" sdssFilterSet sloanUBand rfl rfl 0 1
    (by norm_num)

/-- **C10**: `fluxtomag` performs no positivity check on a bare numeric
flux: for every registered pair and every `x ≤ 0` it still returns a
magnitude-tagged value (`+inf` at zero flux, `nan` at negative flux)
instead of raising an error. -/
theorem fluxtomag_nonpositive_no_check (tel band : String) (fs : FilterSet) (b : Band)
    (hfs : fsmInit.getitem tel = Except.ok fs)
    (hb : fs.getitem band = Except.ok b) (mjy : Bool) (x : ℝ) (hx : x ≤ 0) :
    fsmInit.fluxtomag tel band (FluxArg.scalar x) mjy =
      Except.ok ⟨if x = 0 then FloatVal.posInf else FloatVal.nan⟩ := by
  have hzp : 0 < (b.zeropoint : ℝ) := registered_zp_pos hfs hb
  unfold FilterSetManager.fluxtomag
  rw [hfs]
  dsimp only
  rw [hb]
  dsimp only
  rcases hx.lt_or_eq with hneg | rfl
  · have hne : x ≠ 0 := ne_of_lt hneg
    rw [if_neg hne]
    have hy : (if mjy = true then x / 1000 else x) < 0 := by
      cases mjy
      · simpa using hneg
      · simpa using div_neg_of_neg_of_pos hneg (by norm_num)
    have hq : (if mjy = true then x / 1000 else x) / (b.zeropoint : ℝ) < 0 :=
      div_neg_of_neg_of_pos hy hzp
    simp [FloatVal.divPos, np_log10, mulNeg2p5, hq.ne, not_lt.mpr hq.le]
  · have h00 : (if mjy = true then (0:ℝ) / 1000 else (0:ℝ)) = 0 := by
      cases mjy <;> simp
    rw [h00]
    simp [FloatVal.divPos, np_log10, mulNeg2p5, zero_div]

/-- Witness for C10 at the Sloan `u` band with flux 0. -/
theorem fluxtomag_nonpositive_no_check_witness :
    ((0:ℝ) ≤ 0) ∧
    fsmInit.fluxtomag "SDSS" "SDSS_u" (FluxArg.scalar 0) true =
      Except.ok ⟨if (0:ℝ) = 0 then FloatVal.posInf else FloatVal.nan⟩ :=
  ⟨le_refl 0,
   fluxtomag_nonpositive_no_check "SDSS" "SDSS_u" sdssFilterSet sloanUBand rfl rfl
     true 0 (le_refl 0)⟩

/-- **C2 (counterexample)**: the literal names of the claim are not
registered: looking up "SLOAN", "sloan" or "Sloan" in the registry
raises `KeyError` (the Sloan set is stored under its telescope name
"SDSS"), so no FilterSet is returned; and the band lookup "u" in the
Sloan set raises `KeyError` (bands are keyed by full lowercased names
such as "sdss_u"). -/
theorem lookup_sloan_unregistered :
    fsmInit.getitem "SLOAN" = Except.error (PyError.keyError "sloan") ∧
    fsmInit.getitem "sloan" = Except.error (PyError.keyError "sloan") ∧
    fsmInit.getitem "Sloan" = Except.error (PyError.keyError "sloan") ∧
    sdssFilterSet.getitem "u" = Except.error (PyError.keyError "u") :=
  ⟨rfl, rfl, rfl, rfl⟩

/-- **C2 (amended)**: filter-set lookup is case-insensitive for names
that are registered: "SDSS", "sdss" and "Sdss" all return the same
FilterSet, and band lookups "SDSS_u", "sdss_u" and "SDSS_U" within it
all return the same Band. -/
theorem lookup_case_insensitive :
    fsmInit.getitem "SDSS" = Except.ok sdssFilterSet ∧
    fsmInit.getitem "sdss" = Except.ok sdssFilterSet ∧
    fsmInit.getitem "Sdss" = Except.ok sdssFilterSet ∧
    sdssFilterSet.getitem "SDSS_u" = Except.ok sloanUBand ∧
    sdssFilterSet.getitem "sdss_u" = Except.ok sloanUBand ∧
    sdssFilterSet.getitem "SDSS_U" = Except.ok sloanUBand :=
  ⟨rfl, rfl, rfl, rfl, rfl, rfl⟩

/-- **C3**: the `mjy=False` branch of `magtoflux` never returns a
Jy-tagged value: line 363 runs `value.to(Jy)` with the undefined global
name `Jy` (instead of `u.Jy`), raising `NameError`, here at the
Sloan `u` band and magnitude 10. -/
theorem magtoflux_jy_branch_nameerror :
    fsmInit.magtoflux "SDSS" "SDSS_u" (MagArg.scalar 10) false =
      Except.error (PyError.nameError "Jy") := rfl

/-- **C5**: `bandnames` never returns the band keys: on the registered
(lowercase) set name "sdss" the `.keys()` attribute access raises
`AttributeError` because `FilterSet` defines no `keys` method; the set
name is also looked up raw, so even "SDSS" raises `KeyError`, as does an
unregistered name. -/
theorem bandnames_attribute_error :
    fsmInit.bandnames "sdss" =
      Except.error (PyError.attributeError "FilterSet object has no attribute keys") ∧
    fsmInit.bandnames "SDSS" = Except.error (PyError.keyError "SDSS") ∧
    fsmInit.bandnames "notaset" = Except.error (PyError.keyError "notaset") :=
  ⟨rfl, rfl, rfl⟩

/-- **C6**: `addBands` applied to a single Band (not wrapped in a list)
raises `TypeError` from `list(bands)`, since `Band` is not iterable; the
list path does insert with lowercased keys, overwriting an existing key
last-write-wins while leaving other keys unchanged. -/
theorem addBands_single_band_typeerror :
    sdssFilterSet.addBands (BandsArg.single sloanUBand) =
      Except.error (PyError.typeError "Band object is not iterable") ∧
    (FilterSet.mk "X" []).addBands (BandsArg.list
        [⟨"AA", 1, 1, 5⟩, ⟨"bb", 1, 1, 6⟩, ⟨"aa", 1, 1, 7⟩]) =
      Except.ok ⟨"X", [("aa", ⟨"aa", 1, 1, 7⟩), ("bb", ⟨"bb", 1, 1, 6⟩)]⟩ :=
  ⟨rfl, rfl⟩

/-- **C7**: constructing a Photometry whose value resolves to
magnitude-kind while the error resolves to flux-density-kind (Jy or
mJy), or vice versa, fails with the mixed-kind `Exception` of line 409,
and no Photometry object is produced. -/
theorem photometry_mixed_kind_error (bn : String) (v w : FloatVal)
    (val : Bool) (unit : Option PyUnit) :
    photometryInit bn (PyInput.magnitudeQ v) (PyInput.quantity ⟨w, PyUnit.jansky⟩) val unit
      = Except.error (PyError.exception
          "flux and error must be a Magnitude or Flux Density Quantity and have equivalent units") ∧
    photometryInit bn (PyInput.quantity ⟨w, PyUnit.jansky⟩) (PyInput.magnitudeQ v) val unit
      = Except.error (PyError.exception
          "flux and error must be a Magnitude or Flux Density Quantity and have equivalent units") ∧
    photometryInit bn (PyInput.magnitudeQ v) (PyInput.quantity ⟨w, PyUnit.milliJansky⟩) val unit
      = Except.error (PyError.exception
          "flux and error must be a Magnitude or Flux Density Quantity and have equivalent units") ∧
    photometryInit bn (PyInput.quantity ⟨w, PyUnit.milliJansky⟩) (PyInput.magnitudeQ v) val unit
      = Except.error (PyError.exception
          "flux and error must be a Magnitude or Flux Density Quantity and have equivalent units") := by
  refine ⟨?_, ?_, ?_, ?_⟩ <;> simp [photometryInit, isFluxDensity, isMagnitude]

/-- **C8**: constructing a Photometry with a band name absent from
`_valid_bands` succeeds with only a warning (the returned flag is
`true`), both for a magnitude-stored and for a flux-stored value; but
the `flux` property of the magnitude-stored record and the `magnitude`
property of the flux-stored record, which need the zero-point, fail
with the `KeyError` of the reverse lookup. -/
theorem photometry_unknown_band (bn : String)
    (h : dlookup _valid_bands bn = none) (v w : ℝ) (val : Bool) :
    photometryInit bn (PyInput.magnitudeQ (FloatVal.finite v))
        (PyInput.magnitudeQ (FloatVal.finite w)) val none =
      Except.ok (⟨bn, PyInput.magnitudeQ (FloatVal.finite v),
        PyInput.magnitudeQ (FloatVal.finite w), val⟩, true) ∧
    Photometry.fluxProp ⟨bn, PyInput.magnitudeQ (FloatVal.finite v),
        PyInput.magnitudeQ (FloatVal.finite w), val⟩ =
      Except.error (PyError.keyError bn) ∧
    photometryInit bn (PyInput.quantity ⟨FloatVal.finite v, PyUnit.jansky⟩)
        (PyInput.quantity ⟨FloatVal.finite w, PyUnit.jansky⟩) val none =
      Except.ok (⟨bn, PyInput.quantity ⟨FloatVal.finite v, PyUnit.jansky⟩,
        PyInput.quantity ⟨FloatVal.finite w, PyUnit.jansky⟩, val⟩, true) ∧
    Photometry.magnitudeProp ⟨bn, PyInput.quantity ⟨FloatVal.finite v, PyUnit.jansky⟩,
        PyInput.quantity ⟨FloatVal.finite w, PyUnit.jansky⟩, val⟩ =
      Except.error (PyError.keyError bn) := by
  refine ⟨?_, ?_, ?_, ?_⟩
  · simp [photometryInit, isFluxDensity, isMagnitude, h]
  · simp [Photometry.fluxProp, h]
  · simp [photometryInit, isFluxDensity, isMagnitude, h]
  · simp [Photometry.magnitudeProp, h]

/-- Witness for C8 at the unrecognized band name "XYZ". -/
theorem photometry_unknown_band_witness :
    dlookup _valid_bands "XYZ" = none ∧
    (photometryInit "XYZ" (PyInput.magnitudeQ (FloatVal.finite 1))
        (PyInput.magnitudeQ (FloatVal.finite 2)) true none =
      Except.ok (⟨"XYZ", PyInput.magnitudeQ (FloatVal.finite 1),
        PyInput.magnitudeQ (FloatVal.finite 2), true⟩, true) ∧
    Photometry.fluxProp ⟨"XYZ", PyInput.magnitudeQ (FloatVal.finite 1),
        PyInput.magnitudeQ (FloatVal.finite 2), true⟩ =
      Except.error (PyError.keyError "XYZ") ∧
    photometryInit "XYZ" (PyInput.quantity ⟨FloatVal.finite 1, PyUnit.jansky⟩)
        (PyInput.quantity ⟨FloatVal.finite 2, PyUnit.jansky⟩) true none =
      Except.ok (⟨"XYZ", PyInput.quantity ⟨FloatVal.finite 1, PyUnit.jansky⟩,
        PyInput.quantity ⟨FloatVal.finite 2, PyUnit.jansky⟩, true⟩, true) ∧
    Photometry.magnitudeProp ⟨"XYZ", PyInput.quantity ⟨FloatVal.finite 1, PyUnit.jansky⟩,
        PyInput.quantity ⟨FloatVal.finite 2, PyUnit.jansky⟩, true⟩ =
      Except.error (PyError.keyError "XYZ")) :=
  ⟨rfl, photometry_unknown_band "XYZ" rfl 1 2 true⟩
